import Mathlib

/-!
Shallow embedding of the tree-walking interpreter in
`src/interpreter/src/main.rs` (the richest variant, cited by every claim).

Modelling decisions, all driven by the Rust source:
* `Expr` mirrors the Rust `enum Expr` (serde-deserialised AST).
* `ResultValue` mirrors `enum ResultValue`; the Rust variant
  `Func(fn(Vec<ResultValue>) -> Result<ResultValue, String>)` stores a raw
  function pointer that is only ever one of the entries of the builtin
  table built in `Env::new`, each of which is keyed by its name; we
  therefore represent a `Func` value by that key and dispatch on it in
  `applyBuiltin`, which implements every table entry's body verbatim.
* `Env` mirrors `struct Env`: per-scope `vars` map from name to a shared
  mutable cell `Rc<RefCell<ResultValue>>`, a `builtins` map (non-empty only
  in the root environment made by `Env::new`), and an optional parent.
  The shared cells are modelled by addresses (`Nat`) into an explicit
  store; cloning an `Env` (Rust `env.clone()`) copies the scope structure
  but shares the cells, which is exactly what copying address-valued maps
  does.  `parent: Option<Box<Env>>` is modelled by the `root`/`child`
  constructors.
* The store plus the text printed by the `print` builtin form the mutable
  state `St` threaded through evaluation.
* Rust `Result<_, String>` errors are `Err.estr`; places where the Rust
  code panics (slice-index panics, `sort_by` comparator panics, integer
  underflow on `usize`) are modelled by the distinct `Err.panic`, since a
  panic aborts the process instead of propagating as an ordinary error.
* Run-time recursion of `eval_expr` is made total with a fuel parameter;
  `none` means the fuel ran out, and every theorem below supplies enough
  fuel for the programs it mentions.
-/

/-- The AST, mirroring Rust `enum Expr` in `main.rs` (serde PascalCase tags). -/
inductive Expr where
  | application (args : List Expr)
  | identifier (name : String)
  | cond (clauses : List Expr)
  | block (exprs : List Expr)
  | clause (parts : List Expr)
  | number (n : Int)
  | string (s : String)
  | parameters (params : List Expr)
  | lambda (args : List Expr)
  | letE (name : Expr) (value : Expr) (body : Expr)
  | assignment (name : Expr) (value : Expr)

/-- Environments, mirroring Rust `struct Env`.  `vars` maps a name to the
address of its shared mutable cell (`Rc<RefCell<ResultValue>>`); `builtins`
lists the names of the builtin table entries owned by this scope (the full
table in the root made by `Env::new`, empty in every child made by
`Env::new_with_parent`).  `root` is `parent: None`, `child` is
`parent: Some(box …)`. -/
inductive Env where
  | root (vars : List (String × Nat)) (builtins : List String)
  | child (vars : List (String × Nat)) (builtins : List String) (parent : Env)
  deriving DecidableEq

/-- Values, mirroring Rust `enum ResultValue`.  `func name` stands for the
builtin-table entry keyed by `name` (see the header comment); `lambda`
carries parameter names, the unevaluated body and the captured environment,
`vec` is the array variant. -/
inductive ResultValue where
  | num (n : Int)
  | bool (b : Bool)
  | str (s : String)
  | func (name : String)
  | lambda (params : List String) (body : Expr) (captured : Env)
  | vec (elems : List ResultValue)

/-- The mutable run-time state: the store backing every
`Rc<RefCell<ResultValue>>` cell ever created (addresses are list indices),
plus the lines written to stdout by the `print` builtin. -/
structure St where
  store : List ResultValue
  out : List String

/-- Errors: `estr` is an ordinary `Err(String)` propagated by `?`; `panic`
marks a place where the Rust code panics (process abort, not a value). -/
inductive Err where
  | estr (msg : String)
  | panic (msg : String)
  deriving Repr, DecidableEq

mutual
/-- Rust `{:?}` (Debug derive) rendering of an `Expr`, needed because
`ResultValue::Lambda` Display-renders via `{:?}` of its pieces.  String
escaping inside quotes is not modelled (no name used below needs it). -/
def debugExpr : Expr → String
  | .application es => "Application([" ++ debugExprList es ++ "])"
  | .identifier s => "Identifier(\"" ++ s ++ "\")"
  | .cond es => "Cond([" ++ debugExprList es ++ "])"
  | .block es => "Block([" ++ debugExprList es ++ "])"
  | .clause es => "Clause([" ++ debugExprList es ++ "])"
  | .number n => "Number(" ++ toString n ++ ")"
  | .string s => "String(\"" ++ s ++ "\")"
  | .parameters es => "Parameters([" ++ debugExprList es ++ "])"
  | .lambda es => "Lambda([" ++ debugExprList es ++ "])"
  | .letE a b c =>
      "Let(" ++ debugExpr a ++ ", " ++ debugExpr b ++ ", " ++ debugExpr c ++ ")"
  | .assignment a b => "Assignment(" ++ debugExpr a ++ ", " ++ debugExpr b ++ ")"

/-- Element list of Rust `{:?}` of a `Vec<Expr>` (`", "`-separated). -/
def debugExprList : List Expr → String
  | [] => ""
  | [e] => debugExpr e
  | e :: rest => debugExpr e ++ ", " ++ debugExprList rest
end

/-- Rust `{:?}` of a `Vec<String>` (used in the Lambda Display arm). -/
def debugStrList (ss : List String) : String :=
  "[" ++ String.intercalate ", " (ss.map (fun s => "\"" ++ s ++ "\"")) ++ "]"

mutual
/-- Rust `impl Display for ResultValue` in `main.rs`. -/
def display : ResultValue → String
  | .num n => toString n
  | .bool b => toString b
  | .str s => s
  | .func _ => "<function>"
  | .lambda p b _ => "<lambda " ++ debugStrList p ++ " " ++ debugExpr b ++ ">"
  | .vec v => "[" ++ displayJoin v ++ "]"

/-- The element loop of the `Vec` Display arm: `", "` between elements,
nothing after the last (and nothing for the empty vector). -/
def displayJoin : List ResultValue → String
  | [] => ""
  | [v] => display v
  | v :: rest => display v ++ ", " ++ displayJoin rest
end

/-- `Env::get_vars`: search own `vars`, then the parent chain; the result is
the address of the shared cell (`Rc` clone in Rust = same cell). -/
def Env.getVars : Env → String → Option Nat
  | .root vs _, name => vs.lookup name
  | .child vs _ p, name =>
      match vs.lookup name with
      | some a => some a
      | none => p.getVars name

/-- `Env::get_builtins`: search own `builtins` table, then the parent chain;
every table entry is the native procedure keyed by its name. -/
def Env.getBuiltins : Env → String → Option ResultValue
  | .root _ bs, name => if bs.contains name then some (.func name) else none
  | .child _ bs p, name =>
      if bs.contains name then some (.func name) else p.getBuiltins name

/-- `Env::new_with_parent`: empty `vars` and `builtins`, given parent. -/
def Env.newWithParent (parent : Env) : Env := .child [] [] parent

/-- `Env::insert_vars`: allocate a fresh cell (`Rc::new(RefCell::new _)`)
holding `v` and map `name` to it in the current scope only (`HashMap::insert`
overwrites; an association-list prepend has the same lookup semantics). -/
def Env.insertVars (env : Env) (name : String) (v : ResultValue) (st : St) :
    Env × St :=
  let addr := st.store.length
  let env' := match env with
    | .root vs bs => Env.root ((name, addr) :: vs) bs
    | .child vs bs p => Env.child ((name, addr) :: vs) bs p
  (env', { st with store := st.store ++ [v] })

/-- `Env::update_vars_deref`: find the nearest scope owning `name` (the same
search order as `get_vars`) and overwrite that cell in place
(`*cell.borrow_mut() = value`); `Err("Variable not found")` otherwise. -/
def Env.updateVarsDeref (env : Env) (name : String) (v : ResultValue)
    (st : St) : Except Err St :=
  match env.getVars name with
  | some addr => .ok { st with store := st.store.set addr v }
  | none => .error (.estr "Variable not found")

/-- The keys inserted into the builtin table by `Env::new`, in source order. -/
def builtinNames : List String :=
  ["add", "sub", "mul", "div", "pow", "zero?", "eq", "<", ">", ">=", "<=",
   "print", "abs", "max", "min", "fact", "mod", "wait", "intArray",
   "stringArray", "len", "get", "set", "append", "remove", "rev", "sort",
   "empty?", "head", "tail", "last", "map", "filter", "fold", "sum",
   "product", "median", "mean", "maxArray", "minArray"]

/-- The variable map built by `Env::new`: `i = 1`, `v = 5`, `x = 10`, each in
its own fresh cell; the matching initial store is `St.initial`. -/
def Env.initial : Env :=
  .root [("i", 0), ("v", 1), ("x", 2)] builtinNames

/-- The store backing `Env.initial`'s three cells; nothing printed yet. -/
def St.initial : St :=
  { store := [.num 1, .num 5, .num 10], out := [] }

/-! ### The builtin table entries

Each `b…` definition below is the body of the corresponding closure
inserted into `builtins` by `Env::new`, in the same order and with the same
error strings.  Rust indexes `args[k]` only after the length check, so the
`getD` defaults are unreachable. -/

/-- Arbitrary placeholder for an `args[k]` index that the preceding length
check has already proved in bounds. -/
def dflt : ResultValue := .bool false

/-- Is the value a `Number`?  (Used to model `sort_by`'s comparator, which
panics on any non-`Number` operand.) -/
def isNum : ResultValue → Bool
  | .num _ => true
  | _ => false

/-- Is the value a `String`? -/
def isStr : ResultValue → Bool
  | .str _ => true
  | _ => false

/-- The `Number` payload; only ever applied to values `isNum` accepts. -/
def rvKey : ResultValue → Int
  | .num n => n
  | _ => 0

/-- Stable ascending insertion of `x` into an already sorted list. -/
def insertNum (x : ResultValue) : List ResultValue → List ResultValue
  | [] => [x]
  | y :: ys => if rvKey y ≤ rvKey x then y :: insertNum x ys else x :: y :: ys

/-- Ascending sort by the `Number` payload. -/
def sortNumList : List ResultValue → List ResultValue
  | [] => []
  | x :: xs => insertNum x (sortNumList xs)

/-- Rust `v.sort_by(|a, b| match … { (Number, Number) => cmp, _ => panic })`:
with zero or one element the comparator never runs; otherwise Rust's sort
compares every adjacent pair at least once, so any non-`Number` element
makes the comparator panic; on all-`Number` input it sorts ascending (ties
are identical values, so any correct ascending sort gives Rust's output). -/
def rustSortBy (v : List ResultValue) : Except Err (List ResultValue) :=
  if v.length ≤ 1 then .ok v
  else if v.all isNum then .ok (sortNumList v)
  else .error (.panic "Invalid argument")

/-- `add` builtin. -/
def bAdd (args : List ResultValue) : Except Err ResultValue :=
  if args.length ≠ 2 then .error (.estr "Expected exactly 2 arguments")
  else match args.getD 0 dflt, args.getD 1 dflt with
    | .num a, .num b => .ok (.num (a + b))
    | _, _ => .error (.estr "Invalid arguments")

/-- `sub` builtin. -/
def bSub (args : List ResultValue) : Except Err ResultValue :=
  if args.length ≠ 2 then .error (.estr "Expected exactly 2 arguments")
  else match args.getD 0 dflt, args.getD 1 dflt with
    | .num a, .num b => .ok (.num (a - b))
    | _, _ => .error (.estr "Invalid arguments")

/-- `mul` builtin. -/
def bMul (args : List ResultValue) : Except Err ResultValue :=
  if args.length ≠ 2 then .error (.estr "Expected exactly 2 arguments")
  else match args.getD 0 dflt, args.getD 1 dflt with
    | .num a, .num b => .ok (.num (a * b))
    | _, _ => .error (.estr "Invalid arguments")

/-- `div` builtin (Rust `/` on `i64` truncates toward zero). -/
def bDiv (args : List ResultValue) : Except Err ResultValue :=
  if args.length ≠ 2 then .error (.estr "Expected exactly 2 arguments")
  else match args.getD 0 dflt, args.getD 1 dflt with
    | .num a, .num b =>
        if b = 0 then .error (.estr "Division by zero")
        else .ok (.num (Int.tdiv a b))
    | _, _ => .error (.estr "Invalid arguments")

/-- `pow` builtin: `a.pow(b as u32)` takes the low 32 bits of `b`. -/
def bPow (args : List ResultValue) : Except Err ResultValue :=
  if args.length ≠ 2 then .error (.estr "Expected exactly 2 arguments")
  else match args.getD 0 dflt, args.getD 1 dflt with
    | .num a, .num b => .ok (.num (a ^ (b.emod (2 ^ 32)).toNat))
    | _, _ => .error (.estr "Invalid arguments")

/-- `zero?` builtin. -/
def bZero (args : List ResultValue) : Except Err ResultValue :=
  if args.length ≠ 1 then .error (.estr "Expected exactly 1 argument")
  else match args.getD 0 dflt with
    | .num n => .ok (.bool (n = 0))
    | _ => .error (.estr "Invalid argument")

/-- `eq` builtin (defined on `Number`s only). -/
def bEq (args : List ResultValue) : Except Err ResultValue :=
  if args.length ≠ 2 then .error (.estr "Expected exactly 2 arguments")
  else match args.getD 0 dflt, args.getD 1 dflt with
    | .num a, .num b => .ok (.bool (a = b))
    | _, _ => .error (.estr "Invalid arguments")

/-- `<` builtin. -/
def bLt (args : List ResultValue) : Except Err ResultValue :=
  if args.length ≠ 2 then .error (.estr "Expected exactly 2 arguments")
  else match args.getD 0 dflt, args.getD 1 dflt with
    | .num a, .num b => .ok (.bool (a < b))
    | _, _ => .error (.estr "Invalid arguments")

/-- `>` builtin. -/
def bGt (args : List ResultValue) : Except Err ResultValue :=
  if args.length ≠ 2 then .error (.estr "Expected exactly 2 arguments")
  else match args.getD 0 dflt, args.getD 1 dflt with
    | .num a, .num b => .ok (.bool (a > b))
    | _, _ => .error (.estr "Invalid arguments")

/-- `>=` builtin. -/
def bGe (args : List ResultValue) : Except Err ResultValue :=
  if args.length ≠ 2 then .error (.estr "Expected exactly 2 arguments")
  else match args.getD 0 dflt, args.getD 1 dflt with
    | .num a, .num b => .ok (.bool (a ≥ b))
    | _, _ => .error (.estr "Invalid arguments")

/-- `<=` builtin. -/
def bLe (args : List ResultValue) : Except Err ResultValue :=
  if args.length ≠ 2 then .error (.estr "Expected exactly 2 arguments")
  else match args.getD 0 dflt, args.getD 1 dflt with
    | .num a, .num b => .ok (.bool (a ≤ b))
    | _, _ => .error (.estr "Invalid arguments")

/-- The line `print` writes: `print!("{} ", arg)` per argument, then a
newline.  Note: no arity check of any kind. -/
def printLine (args : List ResultValue) : String :=
  String.join (args.map (fun a => display a ++ " "))

/-- `abs` builtin. -/
def bAbs (args : List ResultValue) : Except Err ResultValue :=
  if args.length ≠ 1 then .error (.estr "Expected exactly 1 argument")
  else match args.getD 0 dflt with
    | .num n => .ok (.num n.natAbs)
    | _ => .error (.estr "Invalid argument")

/-- `max` builtin. -/
def bMax (args : List ResultValue) : Except Err ResultValue :=
  if args.length ≠ 2 then .error (.estr "Expected exactly 2 arguments")
  else match args.getD 0 dflt, args.getD 1 dflt with
    | .num a, .num b => .ok (.num (Max.max a b))
    | _, _ => .error (.estr "Invalid arguments")

/-- `min` builtin. -/
def bMin (args : List ResultValue) : Except Err ResultValue :=
  if args.length ≠ 2 then .error (.estr "Expected exactly 2 arguments")
  else match args.getD 0 dflt, args.getD 1 dflt with
    | .num a, .num b => .ok (.num (Min.min a b))
    | _, _ => .error (.estr "Invalid arguments")

/-- `fact` builtin: `result = 1; for i in 1..=n { result *= i }`. -/
def bFact (args : List ResultValue) : Except Err ResultValue :=
  if args.length ≠ 1 then .error (.estr "Expected exactly 1 argument")
  else match args.getD 0 dflt with
    | .num n =>
        if n < 0 then
          .error (.estr "Factorial of a negative number is undefined")
        else .ok (.num ((List.range n.toNat).foldl
          (fun acc i => acc * ((i : Int) + 1)) 1))
    | _ => .error (.estr "Invalid argument")

/-- `mod` builtin (Rust `%` on `i64` is the truncated remainder). -/
def bMod (args : List ResultValue) : Except Err ResultValue :=
  if args.length ≠ 2 then .error (.estr "Expected exactly 2 arguments")
  else match args.getD 0 dflt, args.getD 1 dflt with
    | .num a, .num b =>
        if b = 0 then .error (.estr "Division by zero")
        else .ok (.num (Int.tmod a b))
    | _, _ => .error (.estr "Invalid arguments")

/-- `wait` builtin: the sleep itself is real time, invisible to the value
semantics; the returned value and both checks are modelled. -/
def bWait (args : List ResultValue) : Except Err ResultValue :=
  if args.length ≠ 1 then .error (.estr "Expected exactly 1 argument")
  else match args.getD 0 dflt with
    | .num _ => .ok (.bool false)
    | _ => .error (.estr "Invalid argument")

/-- The element loop of `intArray` (variadic, no arity check). -/
def intArrayLoop : List ResultValue → Except Err (List ResultValue)
  | [] => .ok []
  | .num n :: rest =>
      match intArrayLoop rest with
      | .ok vs => .ok (.num n :: vs)
      | .error e => .error e
  | _ :: _ => .error (.estr "Invalid argument")

/-- `intArray` builtin. -/
def bIntArray (args : List ResultValue) : Except Err ResultValue :=
  match intArrayLoop args with
  | .ok vs => .ok (.vec vs)
  | .error e => .error e

/-- The element loop of `stringArray` (variadic, no arity check). -/
def stringArrayLoop : List ResultValue → Except Err (List ResultValue)
  | [] => .ok []
  | .str s :: rest =>
      match stringArrayLoop rest with
      | .ok vs => .ok (.str s :: vs)
      | .error e => .error e
  | _ :: _ => .error (.estr "Invalid argument")

/-- `stringArray` builtin. -/
def bStringArray (args : List ResultValue) : Except Err ResultValue :=
  match stringArrayLoop args with
  | .ok vs => .ok (.vec vs)
  | .error e => .error e

/-- `len` builtin. -/
def bLen (args : List ResultValue) : Except Err ResultValue :=
  if args.length ≠ 1 then .error (.estr "Expected exactly 1 argument")
  else match args.getD 0 dflt with
    | .vec v => .ok (.num v.length)
    | _ => .error (.estr "Invalid argument")

/-- `get` builtin: bounds check `i < 0 || i as usize >= v.len()`. -/
def bGet (args : List ResultValue) : Except Err ResultValue :=
  if args.length ≠ 2 then .error (.estr "Expected exactly 2 arguments")
  else match args.getD 0 dflt, args.getD 1 dflt with
    | .vec v, .num i =>
        if i < 0 ∨ v.length ≤ i.toNat then
          .error (.estr "Index out of bounds")
        else .ok (v.getD i.toNat dflt)
    | _, _ => .error (.estr "Invalid arguments")

/-- `set` builtin: clones the array, overwrites index `i`, returns the
fresh array (the argument value is never aliased). -/
def bSet (args : List ResultValue) : Except Err ResultValue :=
  if args.length ≠ 3 then .error (.estr "Expected exactly 3 arguments")
  else match args.getD 0 dflt, args.getD 1 dflt, args.getD 2 dflt with
    | .vec v, .num i, value =>
        if i < 0 ∨ v.length ≤ i.toNat then
          .error (.estr "Index out of bounds")
        else .ok (.vec (v.set i.toNat value))
    | _, _, _ => .error (.estr "Invalid arguments")

/-- `append` builtin: returns a fresh array with the value pushed. -/
def bAppend (args : List ResultValue) : Except Err ResultValue :=
  if args.length ≠ 2 then .error (.estr "Expected exactly 2 arguments")
  else match args.getD 0 dflt, args.getD 1 dflt with
    | .vec v, value => .ok (.vec (v ++ [value]))
    | _, _ => .error (.estr "Invalid arguments")

/-- `remove` builtin: returns a fresh array without index `i`. -/
def bRemove (args : List ResultValue) : Except Err ResultValue :=
  if args.length ≠ 2 then .error (.estr "Expected exactly 2 arguments")
  else match args.getD 0 dflt, args.getD 1 dflt with
    | .vec v, .num i =>
        if i < 0 ∨ v.length ≤ i.toNat then
          .error (.estr "Index out of bounds")
        else .ok (.vec (v.eraseIdx i.toNat))
    | _, _ => .error (.estr "Invalid arguments")

/-- `rev` builtin: returns a fresh reversed array. -/
def bRev (args : List ResultValue) : Except Err ResultValue :=
  if args.length ≠ 1 then .error (.estr "Expected exactly 1 argument")
  else match args.getD 0 dflt with
    | .vec v => .ok (.vec v.reverse)
    | _ => .error (.estr "Invalid argument")

/-- `sort` builtin: sorts a fresh copy with the panicking comparator. -/
def bSort (args : List ResultValue) : Except Err ResultValue :=
  if args.length ≠ 1 then .error (.estr "Expected exactly 1 argument")
  else match args.getD 0 dflt with
    | .vec v =>
        match rustSortBy v with
        | .ok v' => .ok (.vec v')
        | .error e => .error e
    | _ => .error (.estr "Invalid argument")

/-- `empty?` builtin. -/
def bEmpty (args : List ResultValue) : Except Err ResultValue :=
  if args.length ≠ 1 then .error (.estr "Expected exactly 1 argument")
  else match args.getD 0 dflt with
    | .vec v => .ok (.bool v.isEmpty)
    | _ => .error (.estr "Invalid argument")

/-- `head` builtin. -/
def bHead (args : List ResultValue) : Except Err ResultValue :=
  if args.length ≠ 1 then .error (.estr "Expected exactly 1 argument")
  else match args.getD 0 dflt with
    | .vec v =>
        if v.isEmpty then .error (.estr "Array is empty")
        else .ok (v.getD 0 dflt)
    | _ => .error (.estr "Invalid argument")

/-- `tail` builtin. -/
def bTail (args : List ResultValue) : Except Err ResultValue :=
  if args.length ≠ 1 then .error (.estr "Expected exactly 1 argument")
  else match args.getD 0 dflt with
    | .vec v =>
        if v.isEmpty then .error (.estr "Array is empty")
        else .ok (.vec v.tail)
    | _ => .error (.estr "Invalid argument")

/-- `last` builtin. -/
def bLast (args : List ResultValue) : Except Err ResultValue :=
  if args.length ≠ 1 then .error (.estr "Expected exactly 1 argument")
  else match args.getD 0 dflt with
    | .vec v =>
        if v.isEmpty then .error (.estr "Array is empty")
        else .ok (v.getD (v.length - 1) dflt)
    | _ => .error (.estr "Invalid argument")

/-- The element loop of `sum`: `result = 0; for each Number, result += n`. -/
def sumLoop (acc : Int) : List ResultValue → Except Err Int
  | [] => .ok acc
  | .num n :: rest => sumLoop (acc + n) rest
  | _ :: _ => .error (.estr "Invalid argument")

/-- `sum` builtin. -/
def bSum (args : List ResultValue) : Except Err ResultValue :=
  if args.length ≠ 1 then .error (.estr "Expected exactly 1 argument")
  else match args.getD 0 dflt with
    | .vec v =>
        match sumLoop 0 v with
        | .ok n => .ok (.num n)
        | .error e => .error e
    | _ => .error (.estr "Invalid argument")

/-- The element loop of `product`. -/
def productLoop (acc : Int) : List ResultValue → Except Err Int
  | [] => .ok acc
  | .num n :: rest => productLoop (acc * n) rest
  | _ :: _ => .error (.estr "Invalid argument")

/-- `product` builtin. -/
def bProduct (args : List ResultValue) : Except Err ResultValue :=
  if args.length ≠ 1 then .error (.estr "Expected exactly 1 argument")
  else match args.getD 0 dflt with
    | .vec v =>
        match productLoop 1 v with
        | .ok n => .ok (.num n)
        | .error e => .error e
    | _ => .error (.estr "Invalid argument")

/-- `median` builtin.  After sorting, `len % 2 == 0` takes `mid = len / 2`
and indexes `v[mid - 1]`: on the empty array `mid - 1` underflows a `usize`,
a panic — the ordinary "Array is empty" error is never produced here. -/
def bMedian (args : List ResultValue) : Except Err ResultValue :=
  if args.length ≠ 1 then .error (.estr "Expected exactly 1 argument")
  else match args.getD 0 dflt with
    | .vec v =>
        match rustSortBy v with
        | .error e => .error e
        | .ok v' =>
            let len := v'.length
            if len % 2 = 0 then
              if len = 0 then .error (.panic "attempt to subtract with overflow")
              else match v'.getD (len / 2 - 1) dflt, v'.getD (len / 2) dflt with
                | .num a, .num b => .ok (.num (Int.tdiv (a + b) 2))
                | _, _ => .error (.estr "Invalid argument")
            else match v'.getD (len / 2) dflt with
              | .num n => .ok (.num n)
              | _ => .error (.estr "Invalid argument")
    | _ => .error (.estr "Invalid argument")

/-- The element loop of `mean`: accumulates sum and count. -/
def meanLoop (sum : Int) (count : Nat) :
    List ResultValue → Except Err (Int × Nat)
  | [] => .ok (sum, count)
  | .num n :: rest => meanLoop (sum + n) (count + 1) rest
  | _ :: _ => .error (.estr "Invalid argument")

/-- `mean` builtin: errors on the empty array (count zero), otherwise the
truncated quotient of sum by count. -/
def bMean (args : List ResultValue) : Except Err ResultValue :=
  if args.length ≠ 1 then .error (.estr "Expected exactly 1 argument")
  else match args.getD 0 dflt with
    | .vec v =>
        match meanLoop 0 0 v with
        | .error e => .error e
        | .ok (sum, count) =>
            if count = 0 then .error (.estr "Array is empty")
            else .ok (.num (Int.tdiv sum count))
    | _ => .error (.estr "Invalid argument")

/-- The sentinel Rust uses in `maxArray`: `std::i64::MIN`. -/
def i64Min : Int := -(2 ^ 63)

/-- The sentinel Rust uses in `minArray`: `std::i64::MAX`. -/
def i64Max : Int := 2 ^ 63 - 1

/-- The element loop of `maxArray`: `if n > max { max = n }`. -/
def maxLoop (acc : Int) : List ResultValue → Except Err Int
  | [] => .ok acc
  | .num n :: rest => maxLoop (if n > acc then n else acc) rest
  | _ :: _ => .error (.estr "Invalid argument")

/-- `maxArray` builtin: starts the loop at `i64::MIN` and reports
"Array is empty" whenever the loop result still equals that sentinel. -/
def bMaxArray (args : List ResultValue) : Except Err ResultValue :=
  if args.length ≠ 1 then .error (.estr "Expected exactly 1 argument")
  else match args.getD 0 dflt with
    | .vec v =>
        match maxLoop i64Min v with
        | .error e => .error e
        | .ok m =>
            if m = i64Min then .error (.estr "Array is empty")
            else .ok (.num m)
    | _ => .error (.estr "Invalid argument")

/-- The element loop of `minArray`: `if n < min { min = n }`. -/
def minLoop (acc : Int) : List ResultValue → Except Err Int
  | [] => .ok acc
  | .num n :: rest => minLoop (if n < acc then n else acc) rest
  | _ :: _ => .error (.estr "Invalid argument")

/-- `minArray` builtin: sentinel `i64::MAX`, symmetric to `maxArray`. -/
def bMinArray (args : List ResultValue) : Except Err ResultValue :=
  if args.length ≠ 1 then .error (.estr "Expected exactly 1 argument")
  else match args.getD 0 dflt with
    | .vec v =>
        match minLoop i64Max v with
        | .error e => .error e
        | .ok m =>
            if m = i64Max then .error (.estr "Array is empty")
            else .ok (.num m)
    | _ => .error (.estr "Invalid argument")

/-! ### The evaluator

`eval_expr` and `apply_function` are recursive through the builtin table
(`map`/`filter`/`fold` call `eval_expr` back), so the model adds a fuel
parameter: `none` = fuel exhausted, `some (.error e)` = Rust `Err`/panic,
`some (.ok a)` = Rust `Ok`.  The helpers below are the `for` loops of the
source, parameterized over the one-step-smaller evaluator `ev`. -/

/-- The outcome of a fallible, possibly fuel-starved computation. -/
abbrev M (α : Type) : Type := Option (Except Err α)

/-- Sequencing in `M`: Rust's `?` plus fuel-exhaustion propagation. -/
def mbind {α β : Type} (x : M α) (f : α → M β) : M β :=
  match x with
  | none => none
  | some (.error e) => some (.error e)
  | some (.ok a) => f a

/-- An evaluator of one fuel step less, passed to the loop helpers. -/
abbrev Ev : Type := Expr → Env → St → M (ResultValue × Env × St)

/-- Argument evaluation in `apply_function`'s `Func` arm: left-to-right in
the caller's environment, threading its mutations. -/
def evalArgsAux (ev : Ev) : List Expr → Env → St →
    M (List ResultValue × Env × St)
  | [], env, st => some (.ok ([], env, st))
  | a :: rest, env, st =>
      mbind (ev a env st) fun (v, env1, st1) =>
        mbind (evalArgsAux ev rest env1 st1) fun (vs, env2, st2) =>
          some (.ok (v :: vs, env2, st2))

/-- The `Block` loop: `result = Bool(false); for expr in exprs { result =
eval_expr(expr, block_env)? }`, threading the block environment. -/
def evalBlockAux (ev : Ev) : List Expr → ResultValue → Env → St →
    M (ResultValue × Env × St)
  | [], result, benv, st => some (.ok (result, benv, st))
  | e :: rest, _, benv, st =>
      mbind (ev e benv st) fun (v, benv1, st1) =>
        evalBlockAux ev rest v benv1 st1

/-- The `Cond` loop: each clause must be `Clause([cond, conseq])`; the
condition's value selects the clause iff its Display rendering is the text
`"true"`; otherwise the loop continues, and falls out to "No true clause". -/
def evalCondAux (ev : Ev) : List Expr → Env → St →
    M (ResultValue × Env × St)
  | [], _, _ => some (.error (.estr "No true clause"))
  | .clause parts :: rest, env, st =>
      match parts with
      | [c, q] =>
          mbind (ev c env st) fun (v, env1, st1) =>
            if display v == "true" then ev q env1 st1
            else evalCondAux ev rest env1 st1
      | _ => some (.error (.estr "Each clause must have exactly 2 expressions"))
  | _ :: _, _, _ => some (.error (.estr "Invalid clause"))

/-- The `Lambda` parameter-list validation: every element of the
`Parameters` node must be an `Identifier`. -/
def paramNames : List Expr → Except Err (List String)
  | [] => .ok []
  | .identifier n :: rest =>
      match paramNames rest with
      | .ok ns => .ok (n :: ns)
      | .error e => .error e
  | _ :: _ => .error (.estr "Invalid parameter")

/-- The parameter-binding loop of `apply_function`'s `Lambda` arm: evaluate
each argument in the caller's environment, bind it in the fresh frame. -/
def bindParamsAux (ev : Ev) : List String → List Expr → Env → Env → St →
    M (Env × Env × St)
  | [], [], frame, env, st => some (.ok (frame, env, st))
  | p :: ps, a :: as_, frame, env, st =>
      mbind (ev a env st) fun (v, env1, st1) =>
        let (frame1, st2) := frame.insertVars p v st1
        bindParamsAux ev ps as_ frame1 env1 st2
  | _, _, frame, env, st => some (.ok (frame, env, st))

/-- The `map` loop: fresh child frame over the captured environment per
element, bind `params[0]` (indexing an empty parameter list panics). -/
def mapLoop (ev : Ev) (params : List String) (body : Expr) (lenv : Env) :
    List ResultValue → St → M (List ResultValue × St)
  | [], st => some (.ok ([], st))
  | a :: rest, st =>
      match params.head? with
      | none => some (.error (.panic "index out of bounds"))
      | some p =>
          let (frame, st1) := (Env.newWithParent lenv).insertVars p a st
          mbind (ev body frame st1) fun (v, _, st2) =>
            mbind (mapLoop ev params body lenv rest st2) fun (vs, st3) =>
              some (.ok (v :: vs, st3))

/-- The `filter` loop: keeps the element iff the closure result's Display
rendering is the text `"true"` (same truthiness test as `Cond`). -/
def filterLoop (ev : Ev) (params : List String) (body : Expr) (lenv : Env) :
    List ResultValue → St → M (List ResultValue × St)
  | [], st => some (.ok ([], st))
  | a :: rest, st =>
      match params.head? with
      | none => some (.error (.panic "index out of bounds"))
      | some p =>
          let (frame, st1) := (Env.newWithParent lenv).insertVars p a st
          mbind (ev body frame st1) fun (v, _, st2) =>
            mbind (filterLoop ev params body lenv rest st2) fun (vs, st3) =>
              some (.ok ((if display v == "true" then [a] else []) ++ vs, st3))

/-- The `fold` loop: rebinds `params[0]` to the accumulator and `params[1]`
to the element each iteration (indexing a too-short list panics). -/
def foldLoop (ev : Ev) (params : List String) (body : Expr) (lenv : Env) :
    ResultValue → List ResultValue → St → M (ResultValue × St)
  | acc, [], st => some (.ok (acc, st))
  | acc, a :: rest, st =>
      match params.head?, (params.drop 1).head? with
      | some p0, some p1 =>
          let (frame, st1) := (Env.newWithParent lenv).insertVars p0 acc st
          let (frame1, st2) := frame.insertVars p1 a st1
          mbind (ev body frame1 st2) fun (v, _, st3) =>
            foldLoop ev params body lenv v rest st3
      | _, _ => some (.error (.panic "index out of bounds"))

/-- Dispatch on the builtin-table key: each arm is the body of the closure
`Env::new` stores under that key.  `map`/`filter`/`fold` check arity, then
require `(Lambda, …, Vec)` argument shapes and run their loops.  The final
catch-all cannot be reached from `eval`, which only makes `func` values out
of table hits. -/
def applyBuiltin (ev : Ev) (name : String) (args : List ResultValue)
    (st : St) : M (ResultValue × St) :=
  let pure' (r : Except Err ResultValue) : M (ResultValue × St) :=
    match r with
    | .ok v => some (.ok (v, st))
    | .error e => some (.error e)
  match name with
  | "add" => pure' (bAdd args)
  | "sub" => pure' (bSub args)
  | "mul" => pure' (bMul args)
  | "div" => pure' (bDiv args)
  | "pow" => pure' (bPow args)
  | "zero?" => pure' (bZero args)
  | "eq" => pure' (bEq args)
  | "<" => pure' (bLt args)
  | ">" => pure' (bGt args)
  | ">=" => pure' (bGe args)
  | "<=" => pure' (bLe args)
  | "print" =>
      some (.ok (.bool false, { st with out := st.out ++ [printLine args] }))
  | "abs" => pure' (bAbs args)
  | "max" => pure' (bMax args)
  | "min" => pure' (bMin args)
  | "fact" => pure' (bFact args)
  | "mod" => pure' (bMod args)
  | "wait" => pure' (bWait args)
  | "intArray" => pure' (bIntArray args)
  | "stringArray" => pure' (bStringArray args)
  | "len" => pure' (bLen args)
  | "get" => pure' (bGet args)
  | "set" => pure' (bSet args)
  | "append" => pure' (bAppend args)
  | "remove" => pure' (bRemove args)
  | "rev" => pure' (bRev args)
  | "sort" => pure' (bSort args)
  | "empty?" => pure' (bEmpty args)
  | "head" => pure' (bHead args)
  | "tail" => pure' (bTail args)
  | "last" => pure' (bLast args)
  | "map" =>
      if args.length ≠ 2 then
        some (.error (.estr "Expected exactly 2 arguments"))
      else match args.getD 0 dflt, args.getD 1 dflt with
        | .lambda ps body lenv, .vec v =>
            mbind (mapLoop ev ps body lenv v st) fun (vs, st1) =>
              some (.ok (.vec vs, st1))
        | _, _ => some (.error (.estr "Invalid arguments"))
  | "filter" =>
      if args.length ≠ 2 then
        some (.error (.estr "Expected exactly 2 arguments"))
      else match args.getD 0 dflt, args.getD 1 dflt with
        | .lambda ps body lenv, .vec v =>
            mbind (filterLoop ev ps body lenv v st) fun (vs, st1) =>
              some (.ok (.vec vs, st1))
        | _, _ => some (.error (.estr "Invalid arguments"))
  | "fold" =>
      if args.length ≠ 3 then
        some (.error (.estr "Expected exactly 3 arguments"))
      else match args.getD 0 dflt, args.getD 1 dflt, args.getD 2 dflt with
        | .lambda ps body lenv, acc, .vec v =>
            mbind (foldLoop ev ps body lenv acc v st) fun (v1, st1) =>
              some (.ok (v1, st1))
        | _, _, _ => some (.error (.estr "Invalid arguments"))
  | "sum" => pure' (bSum args)
  | "product" => pure' (bProduct args)
  | "median" => pure' (bMedian args)
  | "mean" => pure' (bMean args)
  | "maxArray" => pure' (bMaxArray args)
  | "minArray" => pure' (bMinArray args)
  | _ => some (.error (.estr "unknown builtin"))

/-- `apply_function(f, args, env)`: a `Func` evaluates the arguments in the
caller's environment and hands the values to the native procedure; a
`Lambda` first checks the argument count against the parameter count, then
builds a fresh frame over the captured environment, evaluates/binds the
arguments, and evaluates the body in the frame; anything else is
"Not a function".  The returned environment is the caller's, as mutated by
the argument evaluations (`&mut env` in Rust). -/
def applyFunction (ev : Ev) (f : ResultValue) (args : List Expr) (env : Env)
    (st : St) : M (ResultValue × Env × St) :=
  match f with
  | .func name =>
      mbind (evalArgsAux ev args env st) fun (vals, env1, st1) =>
        mbind (applyBuiltin ev name vals st1) fun (v, st2) =>
          some (.ok (v, env1, st2))
  | .lambda params body lenv =>
      if args.length ≠ params.length then
        some (.error (.estr
          ("Expected " ++ toString params.length ++ " arguments")))
      else
        mbind (bindParamsAux ev params args (Env.newWithParent lenv) env st)
          fun (frame, env1, st1) =>
            mbind (ev body frame st1) fun (v, _, st2) =>
              some (.ok (v, env1, st2))
  | _ => some (.error (.estr "Not a function"))

/-- `eval_expr(expr, env)`, fuel-indexed.  Every recursive occurrence runs
with one unit less fuel; each arm transcribes the corresponding `match` arm
of the Rust function (see the arm comments). -/
def eval : Nat → Expr → Env → St → M (ResultValue × Env × St)
  | 0, _, _, _ => none
  | n + 1, e, env, st =>
    let ev : Ev := fun e env st => eval n e env st
    match e with
    | .number v => some (.ok (.num v, env, st))
    | .string s => some (.ok (.str s, env, st))
    | .application args =>
        -- `args.remove(0)` panics on an empty `Vec`.
        match args with
        | [] => some (.error (.panic "removal index (is 0) should be < len"))
        | op :: rest =>
            mbind (ev op env st) fun (f, env1, st1) =>
              -- If the Display rendering of the evaluated operator names a
              -- builtin-table entry, apply that entry instead.
              match env1.getBuiltins (display f) with
              | some bf => applyFunction ev bf rest env1 st1
              | none => applyFunction ev f rest env1 st1
    | .identifier name =>
        match env.getVars name with
        | some addr =>
            match st.store.get? addr with
            | some v => some (.ok (v, env, st))
            -- An address held by a reachable environment always points into
            -- the store, so this arm never fires in a run from `Env.initial`.
            | none => some (.error (.panic "dangling cell"))
        | none => some (.ok (.str name, env, st))
    | .block exprs =>
        mbind (evalBlockAux ev exprs (.bool false) (Env.newWithParent env) st)
          fun (v, _, st1) => some (.ok (v, env, st1))
    | .cond clauses => evalCondAux ev clauses env st
    | .clause _ => some (.error (.estr "Invalid clause not wrapped in a cond"))
    | .parameters _ =>
        some (.error (.estr "Invalid parameters not wrapped in a lambda"))
    | .lambda args =>
        match args with
        | [ps, body] =>
            match ps with
            | .parameters params =>
                match paramNames params with
                | .ok names => some (.ok (.lambda names body env, env, st))
                | .error e => some (.error e)
            | _ => some (.error (.estr "Invalid parameters"))
        | _ => some (.error (.estr "Lambda must have exactly 2 expressions"))
    | .letE nameE valueE bodyE =>
        match nameE with
        | .identifier name =>
            mbind (ev valueE env st) fun (v, env1, st1) =>
              let (env2, st2) := env1.insertVars name v st1
              ev bodyE env2 st2
        | _ => some (.error (.estr "Invalid variable name"))
    | .assignment nameE valueE =>
        match nameE with
        | .identifier name =>
            mbind (ev valueE env st) fun (v, env1, st1) =>
              match env1.updateVarsDeref name v st1 with
              | .ok st2 => some (.ok (v, env1, st2))
              | .error e => some (.error e)
        | _ => some (.error (.estr "Invalid variable name"))

/-- The observable outcome of an evaluation: the value (or error),
forgetting the final environment and state. -/
def evalValue (fuel : Nat) (e : Expr) (env : Env) (st : St) :
    M ResultValue :=
  mbind (eval fuel e env st) fun (v, _, _) => some (.ok v)

/-! ### Claim theorems -/

/-- The C1 program shape: bind a variable by `Let`, capture it in a
zero-parameter closure inside the `Let`'s scope, then (inside a block)
assign a new value to the variable and apply the closure. -/
def closureMutationProg (a b : Int) : Expr :=
  .letE (.identifier "y") (.number a)
    (.letE (.identifier "g")
      (.lambda [.parameters [], .identifier "y"])
      (.block [.assignment (.identifier "y") (.number b),
               .application [.identifier "g"]]))

/-- C1: in the program that binds `y := a` by `Let`, creates in its scope a
closure reading `y`, assigns `y := b`, and then applies the closure, the
application returns the assigned value `b` — never the creation-time value
`a`.  The closure's captured environment clone shares `y`'s cell, so the
`Assignment`'s in-place cell update is visible through it. -/
theorem C1_closure_observes_mutation (a b : Int) (h : a ≠ b) :
    evalValue 10 (closureMutationProg a b) Env.initial St.initial
        = some (.ok (.num b)) ∧
      evalValue 10 (closureMutationProg a b) Env.initial St.initial
        ≠ some (.ok (.num a)) := by
  have h1 : evalValue 10 (closureMutationProg a b) Env.initial St.initial
      = some (.ok (.num b)) := rfl
  refine ⟨h1, ?_⟩
  intro hc
  rw [h1] at hc
  simp at hc
  exact h hc.symm

/-- Witness for C1 at `a = 1`, `b = 2`. -/
theorem C1_closure_observes_mutation_witness :
    (1 : Int) ≠ 2 ∧
      (evalValue 10 (closureMutationProg 1 2) Env.initial St.initial
          = some (.ok (.num 2)) ∧
        evalValue 10 (closureMutationProg 1 2) Env.initial St.initial
          ≠ some (.ok (.num 1))) :=
  ⟨by decide, C1_closure_observes_mutation 1 2 (by decide)⟩

/-- C2 counterexample: a `Cond` whose single clause has the `String` value
`"true"` as its condition.  The claim predicts the clause is skipped (so
evaluation would fall through to the "No true clause" error); the code
renders the condition to text, sees `"true"`, selects the clause and
returns its consequent `42`. -/
theorem C2_string_true_selects_clause :
    evalValue 10 (.cond [.clause [.string "true", .number 42]])
        Env.initial St.initial = some (.ok (.num 42)) ∧
      evalValue 10 (.cond [.clause [.string "true", .number 42]])
        Env.initial St.initial ≠ some (.error (.estr "No true clause")) := by
  refine ⟨rfl, ?_⟩
  intro hc
  have h1 : evalValue 10 (.cond [.clause [.string "true", .number 42]])
      Env.initial St.initial = some (.ok (.num 42)) := rfl
  rw [h1] at hc
  simp at hc

/-- C2 amended: a `Cond` clause is selected exactly when the Display
rendering of its condition's value is the text `"true"` — so `Bool(true)`
and `String("true")` both select; any other rendering skips the clause
without error, and a `Cond` with no selected clause fails with
"No true clause". -/
theorem C2_cond_truthiness_by_rendering :
    (∀ (ev : Ev) (c q : Expr) (rest : List Expr) (env env1 : Env)
        (st st1 : St) (v : ResultValue),
      ev c env st = some (.ok (v, env1, st1)) →
      (display v = "true" →
        evalCondAux ev (.clause [c, q] :: rest) env st = ev q env1 st1) ∧
      (display v ≠ "true" →
        evalCondAux ev (.clause [c, q] :: rest) env st
          = evalCondAux ev rest env1 st1)) ∧
    evalValue 10 (.cond [.clause [.string "true", .number 42]])
      Env.initial St.initial = some (.ok (.num 42)) ∧
    evalValue 10 (.cond [.clause [.number 7, .number 1],
        .clause [.string "true", .number 2]])
      Env.initial St.initial = some (.ok (.num 2)) ∧
    evalValue 10 (.cond [.clause [.string "yes", .number 1]])
      Env.initial St.initial = some (.error (.estr "No true clause")) := by
  refine ⟨?_, rfl, rfl, rfl⟩
  intro ev c q rest env env1 st st1 v h1
  constructor
  · intro h2
    simp [evalCondAux, mbind, h1, h2]
  · intro h2
    simp [evalCondAux, mbind, h1, h2]

/-- Witness for C2 amended: the condition `Number 7` renders as `"7"`, not
`"true"`, so the clause is skipped; the condition `String "true"` renders
as `"true"`, so its clause is selected. -/
theorem C2_cond_truthiness_by_rendering_witness :
    eval 3 (.number 7) Env.initial St.initial
        = some (.ok (.num 7, Env.initial, St.initial)) ∧
      display (ResultValue.num 7) ≠ "true" ∧
      evalCondAux (fun e env st => eval 3 e env st)
          [.clause [.number 7, .number 1]] Env.initial St.initial
        = evalCondAux (fun e env st => eval 3 e env st) [] Env.initial
            St.initial ∧
      eval 3 (.string "true") Env.initial St.initial
        = some (.ok (.str "true", Env.initial, St.initial)) ∧
      display (ResultValue.str "true") = "true" ∧
      evalCondAux (fun e env st => eval 3 e env st)
          [.clause [.string "true", .number 1]] Env.initial St.initial
        = eval 3 (.number 1) Env.initial St.initial :=
  ⟨rfl, by decide,
    (C2_cond_truthiness_by_rendering.1 (fun e env st => eval 3 e env st)
      (.number 7) (.number 1) [] Env.initial Env.initial St.initial
      St.initial (.num 7) rfl).2 (by decide),
    rfl, rfl,
    (C2_cond_truthiness_by_rendering.1 (fun e env st => eval 3 e env st)
      (.string "true") (.number 1) [] Env.initial Env.initial St.initial
      St.initial (.str "true") rfl).1 rfl⟩

/-- C4 counterexample: `Block [Let x = 2 in 0; x]` in the initial
environment, where `x` is already bound to `10`.  The claim predicts that
after the `Let` finishes, looking `x` up in the environment the `Let` was
evaluated in yields the old binding (`10`); the code leaves the `Let`'s
binding in that environment, so the lookup yields `2`. -/
theorem C4_let_binding_persists_after_let :
    evalValue 10 (.block [.letE (.identifier "x") (.number 2) (.number 0),
        .identifier "x"]) Env.initial St.initial = some (.ok (.num 2)) ∧
      evalValue 10 (.block [.letE (.identifier "x") (.number 2) (.number 0),
        .identifier "x"]) Env.initial St.initial
        ≠ some (.ok (.num 10)) := by
  refine ⟨rfl, ?_⟩
  intro hc
  have h1 : evalValue 10 (.block [.letE (.identifier "x") (.number 2)
      (.number 0), .identifier "x"]) Env.initial St.initial
      = some (.ok (.num 2)) := rfl
  rw [h1] at hc
  simp at hc

/-- C4 amended: a `Let` inserts its binding into the scope it is evaluated
in and never removes it: after the `Let` finishes, looking the name up in
that same environment yields the `Let`-bound value (here `c`), not the
pre-`Let` value.  The outer binding's cell is never modified: evaluating
the whole block returns the outer environment unchanged, `x` still resolves
there to cell 2, and that cell still holds `10` in the final store. -/
theorem C4_let_shadows_cell_untouched (c : Int) :
    eval 10 (.block [.letE (.identifier "x") (.number c) (.number 0),
        .identifier "x"]) Env.initial St.initial
      = some (.ok (.num c, Env.initial,
          { store := [.num 1, .num 5, .num 10, .num c], out := [] })) ∧
    Env.initial.getVars "x" = some 2 ∧
    ([ResultValue.num 1, .num 5, .num 10, .num c].getD 2 dflt
      = .num 10) :=
  ⟨rfl, rfl, rfl⟩

/-- C7: an `Identifier` whose name no scope of the environment chain binds
evaluates to that name as a `String` value, leaving environment and state
untouched — never an unbound-variable error. -/
theorem C7_unbound_identifier_is_string (n : Nat) (name : String)
    (env : Env) (st : St) (h : env.getVars name = none) :
    eval (n + 1) (.identifier name) env st
      = some (.ok (.str name, env, st)) := by
  simp [eval, h]

/-- Witness for C7: `"foo"` is unbound in the initial environment. -/
theorem C7_unbound_identifier_is_string_witness :
    Env.initial.getVars "foo" = none ∧
      eval 10 (.identifier "foo") Env.initial St.initial
        = some (.ok (.str "foo", Env.initial, St.initial)) :=
  ⟨rfl, C7_unbound_identifier_is_string 9 "foo" Env.initial St.initial rfl⟩

/-- C9: whatever a `Block` evaluates to, the environment it hands back is
the very environment it was evaluated in — the block body runs in a fresh
child scope, so no binding cell of the enclosing environment is added,
removed or replaced (`Let`-introduced names die with the child scope; only
cell contents, which live in the store, can change). -/
theorem C9_block_preserves_enclosing_env (n : Nat) (es : List Expr)
    (env env' : Env) (st st' : St) (v : ResultValue)
    (h : eval (n + 1) (.block es) env st = some (.ok (v, env', st'))) :
    env' = env := by
  simp only [eval] at h
  rcases hb : evalBlockAux (fun e env st => eval n e env st) es
      (.bool false) (Env.newWithParent env) st
    with _ | ⟨e | ⟨v2, benv2, st2⟩⟩ <;>
    simp [mbind, hb] at h
  exact h.2.1.symm

/-- Witness for C9: a block whose `Let` introduces `q`; afterwards the
enclosing environment is returned unchanged. -/
theorem C9_block_preserves_enclosing_env_witness :
    eval 10 (.block [.letE (.identifier "q") (.number 1) (.identifier "q")])
        Env.initial St.initial
      = some (.ok (.num 1, Env.initial,
          { store := [.num 1, .num 5, .num 10, .num 1], out := [] })) ∧
      Env.initial = Env.initial :=
  ⟨rfl, C9_block_preserves_enclosing_env 9
    [.letE (.identifier "q") (.number 1) (.identifier "q")]
    Env.initial Env.initial St.initial
    { store := [.num 1, .num 5, .num 10, .num 1], out := [] }
    (.num 1) rfl⟩

/-- A fixed-arity builtin: every call with a different argument count fails
with its "Expected exactly …" error, whatever the arguments are. -/
def arityChecked (name : String) (k : Nat) (msg : String) : Prop :=
  ∀ (ev : Ev) (args : List ResultValue) (st : St),
    args.length ≠ k →
      applyBuiltin ev name args st = some (.error (.estr msg))

/-- `intArray`'s element loop keeps all-`Number` argument lists intact. -/
theorem intArrayLoop_all_num (args : List ResultValue)
    (h : ∀ x ∈ args, isNum x) : intArrayLoop args = .ok args := by
  induction args with
  | nil => rfl
  | cons a rest ih =>
      have ha := h a (by simp)
      match a with
      | .num n =>
          have hr : intArrayLoop rest = .ok rest :=
            ih (fun x hx => h x (by simp [hx]))
          simp [intArrayLoop, hr]
      | .bool b => simp [isNum] at ha
      | .str s => simp [isNum] at ha
      | .func f => simp [isNum] at ha
      | .lambda p b e => simp [isNum] at ha
      | .vec v => simp [isNum] at ha

/-- `stringArray`'s element loop keeps all-`String` argument lists intact. -/
theorem stringArrayLoop_all_str (args : List ResultValue)
    (h : ∀ x ∈ args, isStr x) : stringArrayLoop args = .ok args := by
  induction args with
  | nil => rfl
  | cons a rest ih =>
      have ha := h a (by simp)
      match a with
      | .str s =>
          have hr : stringArrayLoop rest = .ok rest :=
            ih (fun x hx => h x (by simp [hx]))
          simp [stringArrayLoop, hr]
      | .bool b => simp [isStr] at ha
      | .num n => simp [isStr] at ha
      | .func f => simp [isStr] at ha
      | .lambda p b e => simp [isStr] at ha
      | .vec v => simp [isStr] at ha

/-- C3 counterexample: `print` applied to three arguments and to none, and
`intArray` applied to five, all succeed — no arity-mismatch error exists
for them, whatever "declared arity" one would assign, and `print` performs
its output before any check could run (there is none). -/
theorem C3_variadic_builtins_never_arity_fail :
    evalValue 10 (.application [.identifier "print", .number 1, .number 2,
        .number 3]) Env.initial St.initial = some (.ok (.bool false)) ∧
    evalValue 10 (.application [.identifier "print"]) Env.initial St.initial
      = some (.ok (.bool false)) ∧
    evalValue 10 (.application [.identifier "intArray", .number 1, .number 2,
        .number 3, .number 4, .number 5]) Env.initial St.initial
      = some (.ok (.vec [.num 1, .num 2, .num 3, .num 4, .num 5])) ∧
    evalValue 10 (.application [.identifier "stringArray"]) Env.initial
        St.initial = some (.ok (.vec [])) :=
  ⟨rfl, rfl, rfl, rfl⟩

set_option maxHeartbeats 4000000 in
/-- C3 amended: every builtin except the variadic `print`, `intArray` and
`stringArray` has a fixed arity enforced by the native procedure itself
(the first statement of its body — the evaluator performs no check before
dispatch): a call with any other argument count fails with the procedure's
"Expected exactly …" error.  `print` always succeeds (printing first),
and `intArray`/`stringArray` accept any number of well-typed arguments. -/
theorem C3_fixed_arity_except_variadics :
    arityChecked "add" 2 "Expected exactly 2 arguments" ∧
    arityChecked "sub" 2 "Expected exactly 2 arguments" ∧
    arityChecked "mul" 2 "Expected exactly 2 arguments" ∧
    arityChecked "div" 2 "Expected exactly 2 arguments" ∧
    arityChecked "pow" 2 "Expected exactly 2 arguments" ∧
    arityChecked "zero?" 1 "Expected exactly 1 argument" ∧
    arityChecked "eq" 2 "Expected exactly 2 arguments" ∧
    arityChecked "<" 2 "Expected exactly 2 arguments" ∧
    arityChecked ">" 2 "Expected exactly 2 arguments" ∧
    arityChecked ">=" 2 "Expected exactly 2 arguments" ∧
    arityChecked "<=" 2 "Expected exactly 2 arguments" ∧
    arityChecked "abs" 1 "Expected exactly 1 argument" ∧
    arityChecked "max" 2 "Expected exactly 2 arguments" ∧
    arityChecked "min" 2 "Expected exactly 2 arguments" ∧
    arityChecked "fact" 1 "Expected exactly 1 argument" ∧
    arityChecked "mod" 2 "Expected exactly 2 arguments" ∧
    arityChecked "wait" 1 "Expected exactly 1 argument" ∧
    arityChecked "len" 1 "Expected exactly 1 argument" ∧
    arityChecked "get" 2 "Expected exactly 2 arguments" ∧
    arityChecked "set" 3 "Expected exactly 3 arguments" ∧
    arityChecked "append" 2 "Expected exactly 2 arguments" ∧
    arityChecked "remove" 2 "Expected exactly 2 arguments" ∧
    arityChecked "rev" 1 "Expected exactly 1 argument" ∧
    arityChecked "sort" 1 "Expected exactly 1 argument" ∧
    arityChecked "empty?" 1 "Expected exactly 1 argument" ∧
    arityChecked "head" 1 "Expected exactly 1 argument" ∧
    arityChecked "tail" 1 "Expected exactly 1 argument" ∧
    arityChecked "last" 1 "Expected exactly 1 argument" ∧
    arityChecked "map" 2 "Expected exactly 2 arguments" ∧
    arityChecked "filter" 2 "Expected exactly 2 arguments" ∧
    arityChecked "fold" 3 "Expected exactly 3 arguments" ∧
    arityChecked "sum" 1 "Expected exactly 1 argument" ∧
    arityChecked "product" 1 "Expected exactly 1 argument" ∧
    arityChecked "median" 1 "Expected exactly 1 argument" ∧
    arityChecked "mean" 1 "Expected exactly 1 argument" ∧
    arityChecked "maxArray" 1 "Expected exactly 1 argument" ∧
    arityChecked "minArray" 1 "Expected exactly 1 argument" ∧
    (∀ (ev : Ev) (args : List ResultValue) (st : St),
      applyBuiltin ev "print" args st
        = some (.ok (.bool false,
            { st with out := st.out ++ [printLine args] }))) ∧
    (∀ args : List ResultValue, (∀ x ∈ args, isNum x) →
      bIntArray args = .ok (.vec args)) ∧
    (∀ args : List ResultValue, (∀ x ∈ args, isStr x) →
      bStringArray args = .ok (.vec args)) := by
  exact ⟨fun ev args st h => by simp [applyBuiltin, bAdd, h],
    fun ev args st h => by simp [applyBuiltin, bSub, h],
    fun ev args st h => by simp [applyBuiltin, bMul, h],
    fun ev args st h => by simp [applyBuiltin, bDiv, h],
    fun ev args st h => by simp [applyBuiltin, bPow, h],
    fun ev args st h => by simp [applyBuiltin, bZero, h],
    fun ev args st h => by simp [applyBuiltin, bEq, h],
    fun ev args st h => by simp [applyBuiltin, bLt, h],
    fun ev args st h => by simp [applyBuiltin, bGt, h],
    fun ev args st h => by simp [applyBuiltin, bGe, h],
    fun ev args st h => by simp [applyBuiltin, bLe, h],
    fun ev args st h => by simp [applyBuiltin, bAbs, h],
    fun ev args st h => by simp [applyBuiltin, bMax, h],
    fun ev args st h => by simp [applyBuiltin, bMin, h],
    fun ev args st h => by simp [applyBuiltin, bFact, h],
    fun ev args st h => by simp [applyBuiltin, bMod, h],
    fun ev args st h => by simp [applyBuiltin, bWait, h],
    fun ev args st h => by simp [applyBuiltin, bLen, h],
    fun ev args st h => by simp [applyBuiltin, bGet, h],
    fun ev args st h => by simp [applyBuiltin, bSet, h],
    fun ev args st h => by simp [applyBuiltin, bAppend, h],
    fun ev args st h => by simp [applyBuiltin, bRemove, h],
    fun ev args st h => by simp [applyBuiltin, bRev, h],
    fun ev args st h => by simp [applyBuiltin, bSort, h],
    fun ev args st h => by simp [applyBuiltin, bEmpty, h],
    fun ev args st h => by simp [applyBuiltin, bHead, h],
    fun ev args st h => by simp [applyBuiltin, bTail, h],
    fun ev args st h => by simp [applyBuiltin, bLast, h],
    fun ev args st h => by simp [applyBuiltin, h],
    fun ev args st h => by simp [applyBuiltin, h],
    fun ev args st h => by simp [applyBuiltin, h],
    fun ev args st h => by simp [applyBuiltin, bSum, h],
    fun ev args st h => by simp [applyBuiltin, bProduct, h],
    fun ev args st h => by simp [applyBuiltin, bMedian, h],
    fun ev args st h => by simp [applyBuiltin, bMean, h],
    fun ev args st h => by simp [applyBuiltin, bMaxArray, h],
    fun ev args st h => by simp [applyBuiltin, bMinArray, h],
    fun ev args st => rfl,
    fun args h => by simp [bIntArray, intArrayLoop_all_num args h],
    fun args h => by simp [bStringArray, stringArrayLoop_all_str args h]⟩

/-- Witness for C3 amended: `add` with zero arguments errs; `print` with two
arguments succeeds; `intArray` with three numbers succeeds. -/
theorem C3_fixed_arity_except_variadics_witness :
    (0 : Nat) ≠ 2 ∧
      applyBuiltin (fun _ _ _ => none) "add" [] St.initial
        = some (.error (.estr "Expected exactly 2 arguments")) ∧
      applyBuiltin (fun _ _ _ => none) "print" [.num 1, .num 2] St.initial
        = some (.ok (.bool false,
            { St.initial with
                out := St.initial.out ++ [printLine [.num 1, .num 2]] })) ∧
      bIntArray [.num 1, .num 2, .num 3]
        = .ok (.vec [.num 1, .num 2, .num 3]) :=
  ⟨by decide,
    C3_fixed_arity_except_variadics.1 (fun _ _ _ => none) [] St.initial
      (by decide),
    (C3_fixed_arity_except_variadics.2.2.2.2.2.2.2.2.2.2.2.2.2.2.2.2.2.2.2.2.2.2.2.2.2.2.2.2.2.2.2.2.2.2.2.2.2.1)
      (fun _ _ _ => none) [.num 1, .num 2] St.initial,
    (C3_fixed_arity_except_variadics.2.2.2.2.2.2.2.2.2.2.2.2.2.2.2.2.2.2.2.2.2.2.2.2.2.2.2.2.2.2.2.2.2.2.2.2.2.2.1)
      [.num 1, .num 2, .num 3] (by decide)⟩

/-- C5: on the empty array, `mean`, `maxArray` and `minArray` return the
ordinary "Array is empty" error, but `median` panics: with `len = 0` the
even branch computes `mid - 1 = 0usize - 1`, an arithmetic underflow — a
process-aborting panic, not an error value propagated to the caller.  The
last conjunct runs the failing input as a whole program. -/
theorem C5_median_empty_array_panics :
    (∀ (ev : Ev) (st : St), applyBuiltin ev "median" [.vec []] st
      = some (.error (.panic "attempt to subtract with overflow"))) ∧
    (∀ (ev : Ev) (st : St), applyBuiltin ev "mean" [.vec []] st
      = some (.error (.estr "Array is empty"))) ∧
    (∀ (ev : Ev) (st : St), applyBuiltin ev "maxArray" [.vec []] st
      = some (.error (.estr "Array is empty"))) ∧
    (∀ (ev : Ev) (st : St), applyBuiltin ev "minArray" [.vec []] st
      = some (.error (.estr "Array is empty"))) ∧
    evalValue 10 (.application [.identifier "median",
        .application [.identifier "intArray"]]) Env.initial St.initial
      = some (.error (.panic "attempt to subtract with overflow")) :=
  ⟨fun _ _ => rfl, fun _ _ => rfl, fun _ _ => rfl, fun _ _ => rfl, rfl⟩

/-- C6: once the operator expression of an `Application` has been evaluated,
a builtin-table entry named by the Display rendering of the resulting value
is applied in preference to the value itself.  Concretely: the literal
`String "add"` in operator position dispatches to the `add` builtin (instead
of failing as "Not a function"), the unbound `Identifier "add"` reaches the
same builtin through its string fallback, and a string naming no builtin is
applied as a value and fails with "Not a function". -/
theorem C6_rendered_text_builtin_dispatch :
    (∀ (n : Nat) (op : Expr) (rest : List Expr) (env env1 : Env)
        (st st1 : St) (v bf : ResultValue),
      eval n op env st = some (.ok (v, env1, st1)) →
      env1.getBuiltins (display v) = some bf →
      eval (n + 1) (.application (op :: rest)) env st
        = applyFunction (fun e en s => eval n e en s) bf rest env1 st1) ∧
    evalValue 10 (.application [.string "add", .number 2, .number 3])
      Env.initial St.initial = some (.ok (.num 5)) ∧
    evalValue 10 (.application [.identifier "add", .number 2, .number 3])
      Env.initial St.initial = some (.ok (.num 5)) ∧
    evalValue 10 (.application [.string "nosuch", .number 1])
      Env.initial St.initial
      = some (.error (.estr "Not a function")) := by
  refine ⟨?_, rfl, rfl, rfl⟩
  intro n op rest env env1 st st1 v bf h1 h2
  simp [eval, mbind, h1, h2]

/-- Witness for C6: the operator `String "add"` evaluates to the string
value `"add"`, whose rendering names the `add` table entry. -/
theorem C6_rendered_text_builtin_dispatch_witness :
    eval 3 (.string "add") Env.initial St.initial
        = some (.ok (.str "add", Env.initial, St.initial)) ∧
      Env.initial.getBuiltins (display (ResultValue.str "add"))
        = some (.func "add") ∧
      eval 4 (.application [.string "add", .number 2, .number 3])
          Env.initial St.initial
        = applyFunction (fun e en s => eval 3 e en s) (.func "add")
            [.number 2, .number 3] Env.initial St.initial :=
  ⟨rfl, rfl,
    C6_rendered_text_builtin_dispatch.1 3 (.string "add")
      [.number 2, .number 3] Env.initial Env.initial St.initial St.initial
      (.str "add") (.func "add") rfl rfl⟩

/-- On all-`Number` input the `sort_by` model returns the ascending sort
(for zero or one element that is the input itself). -/
theorem rustSortBy_all_num (l : List ResultValue) (h : l.all isNum) :
    rustSortBy l = .ok (sortNumList l) := by
  unfold rustSortBy
  match l with
  | [] => simp [sortNumList]
  | [x] => simp [sortNumList, insertNum]
  | x :: y :: rest => simp [h]

/-- C8: each array builtin consumes the (copied) array value it was handed
and returns a fresh array, leaving the state — and hence every variable's
cell — untouched: the returned `St` is exactly the input `St`.  The final
conjunct demonstrates the frame effect end-to-end: after a successful
`set(a, 0, 5)` on the variable `a` bound to `[7, 8]`, `a` still evaluates
to `[7, 8]` (while the `set` call itself returned `[5, 8]`). -/
theorem C8_array_builtins_copy_on_write :
    (∀ (ev : Ev) (st : St) (l : List ResultValue) (i k : Int),
      0 ≤ i → i.toNat < l.length →
      applyBuiltin ev "set" [.vec l, .num i, .num k] st
        = some (.ok (.vec (l.set i.toNat (.num k)), st))) ∧
    (∀ (ev : Ev) (st : St) (l : List ResultValue) (w : ResultValue),
      applyBuiltin ev "append" [.vec l, w] st
        = some (.ok (.vec (l ++ [w]), st))) ∧
    (∀ (ev : Ev) (st : St) (l : List ResultValue) (i : Int),
      0 ≤ i → i.toNat < l.length →
      applyBuiltin ev "remove" [.vec l, .num i] st
        = some (.ok (.vec (l.eraseIdx i.toNat), st))) ∧
    (∀ (ev : Ev) (st : St) (l : List ResultValue),
      applyBuiltin ev "rev" [.vec l] st
        = some (.ok (.vec l.reverse, st))) ∧
    (∀ (ev : Ev) (st : St) (l : List ResultValue), l.all isNum →
      applyBuiltin ev "sort" [.vec l] st
        = some (.ok (.vec (sortNumList l), st))) ∧
    evalValue 12 (.letE (.identifier "a")
        (.application [.identifier "intArray", .number 7, .number 8])
        (.application [.identifier "set", .identifier "a", .number 0,
          .number 5]))
      Env.initial St.initial = some (.ok (.vec [.num 5, .num 8])) ∧
    evalValue 12 (.letE (.identifier "a")
        (.application [.identifier "intArray", .number 7, .number 8])
        (.block [.application [.identifier "set", .identifier "a",
            .number 0, .number 5],
          .identifier "a"]))
      Env.initial St.initial = some (.ok (.vec [.num 7, .num 8])) := by
  refine ⟨?_, ?_, ?_, ?_, ?_, rfl, rfl⟩
  · intro ev st l i k h1 h2
    have hn : ¬(i < 0 ∨ l.length ≤ i.toNat) := by push_neg; exact ⟨h1, h2⟩
    simp [applyBuiltin, bSet, hn]
  · intro ev st l w
    simp [applyBuiltin, bAppend]
  · intro ev st l i h1 h2
    have hn : ¬(i < 0 ∨ l.length ≤ i.toNat) := by push_neg; exact ⟨h1, h2⟩
    simp [applyBuiltin, bRemove, hn]
  · intro ev st l
    simp [applyBuiltin, bRev]
  · intro ev st l h
    simp [applyBuiltin, bSort, rustSortBy_all_num l h]

/-- Witness for C8 at `l = [Number 1]`, `i = 0`, `k = 2` (and the sorted
singleton for the `sort` conjunct). -/
theorem C8_array_builtins_copy_on_write_witness :
    (0 : Int) ≤ 0 ∧ (Int.toNat 0 < ([ResultValue.num 1]).length) ∧
      applyBuiltin (fun _ _ _ => none) "set" [.vec [.num 1], .num 0, .num 2]
          St.initial
        = some (.ok (.vec [.num 2], St.initial)) ∧
      ([ResultValue.num 1]).all isNum = true ∧
      applyBuiltin (fun _ _ _ => none) "sort" [.vec [.num 1]] St.initial
        = some (.ok (.vec [.num 1], St.initial)) :=
  ⟨by decide, by decide,
    C8_array_builtins_copy_on_write.1 (fun _ _ _ => none) St.initial
      [.num 1] 0 2 (by decide) (by decide),
    by decide,
    C8_array_builtins_copy_on_write.2.2.2.2.1 (fun _ _ _ => none) St.initial
      [.num 1] (by decide)⟩

/-- If every element is the `Number` sentinel, the `maxArray` loop never
updates its accumulator. -/
theorem maxLoop_all_sentinel (l : List ResultValue)
    (h : ∀ x ∈ l, x = .num i64Min) : maxLoop i64Min l = .ok i64Min := by
  induction l with
  | nil => rfl
  | cons a rest ih =>
      have ha := h a (by simp)
      subst ha
      have hstep : maxLoop i64Min (ResultValue.num i64Min :: rest)
          = maxLoop i64Min rest := by simp [maxLoop]
      rw [hstep]
      exact ih (fun x hx => h x (by simp [hx]))

/-- If every element is the `Number` sentinel, the `minArray` loop never
updates its accumulator. -/
theorem minLoop_all_sentinel (l : List ResultValue)
    (h : ∀ x ∈ l, x = .num i64Max) : minLoop i64Max l = .ok i64Max := by
  induction l with
  | nil => rfl
  | cons a rest ih =>
      have ha := h a (by simp)
      subst ha
      have hstep : minLoop i64Max (ResultValue.num i64Max :: rest)
          = minLoop i64Max rest := by simp [minLoop]
      rw [hstep]
      exact ih (fun x hx => h x (by simp [hx]))

/-- C10: `maxArray` detects emptiness by comparing its accumulator with the
sentinel `i64::MIN`, so any non-empty array whose elements are all
`Number(i64::MIN)` is misreported as "Array is empty"; symmetrically
`minArray` with the sentinel `i64::MAX`.  The third conjunct runs the
one-element program from the claim; the last shows the normal behaviour on
an array not made of sentinels. -/
theorem C10_sentinel_emptiness_detection :
    (∀ (ev : Ev) (st : St) (l : List ResultValue), l ≠ [] →
      (∀ x ∈ l, x = .num i64Min) →
      applyBuiltin ev "maxArray" [.vec l] st
        = some (.error (.estr "Array is empty"))) ∧
    (∀ (ev : Ev) (st : St) (l : List ResultValue), l ≠ [] →
      (∀ x ∈ l, x = .num i64Max) →
      applyBuiltin ev "minArray" [.vec l] st
        = some (.error (.estr "Array is empty"))) ∧
    evalValue 10 (.application [.identifier "maxArray",
        .application [.identifier "intArray",
          .number (-9223372036854775808)]]) Env.initial St.initial
      = some (.error (.estr "Array is empty")) ∧
    evalValue 10 (.application [.identifier "minArray",
        .application [.identifier "intArray",
          .number 9223372036854775807]]) Env.initial St.initial
      = some (.error (.estr "Array is empty")) ∧
    evalValue 10 (.application [.identifier "maxArray",
        .application [.identifier "intArray", .number 3, .number 1,
          .number 2]]) Env.initial St.initial = some (.ok (.num 3)) := by
  refine ⟨?_, ?_, rfl, rfl, rfl⟩
  · intro ev st l hne h
    simp [applyBuiltin, bMaxArray, maxLoop_all_sentinel l h]
  · intro ev st l hne h
    simp [applyBuiltin, bMinArray, minLoop_all_sentinel l h]

/-- Witness for C10 at the one-element sentinel arrays. -/
theorem C10_sentinel_emptiness_detection_witness :
    ([ResultValue.num i64Min] ≠ []) ∧
      (∀ x ∈ [ResultValue.num i64Min], x = ResultValue.num i64Min) ∧
      applyBuiltin (fun _ _ _ => none) "maxArray" [.vec [.num i64Min]]
          St.initial = some (.error (.estr "Array is empty")) ∧
      applyBuiltin (fun _ _ _ => none) "minArray" [.vec [.num i64Max]]
          St.initial = some (.error (.estr "Array is empty")) :=
  ⟨by simp, by simp,
    C10_sentinel_emptiness_detection.1 (fun _ _ _ => none) St.initial
      [.num i64Min] (by simp) (by simp),
    C10_sentinel_emptiness_detection.2.1 (fun _ _ _ => none) St.initial
      [.num i64Max] (by simp) (by simp)⟩
